import Mathlib

/-!
Shallow embedding of the pilk-dn-log repository's position-tracking core.

Two variants exist in the source:
* `src/src/pilk_dn_log/positions.py` (the `Position` dataclass and
  `PositionManager`, used by the Textual TUI in `src/src/pilk_dn_log/tui.py`);
* `src/run.py` (a single-file CLI keeping dict records; modelled here by the
  `RunPosition` structure and the functions in namespace `Run`).

The JSON files are modelled as the lists of records they contain; every
function that reads or writes a file takes the file contents as an argument
and returns the new contents.  Python floats are modelled as `ℚ`; timestamps
(`datetime.now()` and its formattings) are opaque strings supplied by the
caller.  Interactive `input()` confirmations are modelled as `Bool`
arguments; the value entered by the operator is an ordinary argument.
-/

namespace PilkDnLog

/-- Replace the first element of a list satisfying `P` by `v` (models the
Python idiom `for i, p in enumerate(xs): if cond(p): xs[i] = v; break`
used in `run.py` (update_delta) and `positions.py` (update_position)). -/
def replaceFirst {α : Type} (P : α → Bool) (v : α) : List α → List α
  | [] => []
  | p :: rest => bif P p then v :: rest else p :: replaceFirst P v rest

/-- Python's `int(x)` on a rational: truncation toward zero
(only used to build display names). -/
def pyInt (q : ℚ) : Int := if q ≥ 0 then q.floor else q.ceil

/-- The `Position` dataclass of `src/src/pilk_dn_log/positions.py`. -/
structure Position where
  id : String
  name : String
  option_type : String
  strike : ℚ
  expiry : String
  size : ℚ
  entry_delta : ℚ
  band : ℚ
  current_hedge : ℚ
  created_at : String
  updated_at : String
  rehedge_count : Nat := 0
  is_active : Bool := true
  binance_symbol : Option String := none
deriving Repr, DecidableEq

/-- `Position.target_hedge` (property): target hedge from the entry delta. -/
def Position.target_hedge (p : Position) : ℚ :=
  let delta_exposure := p.size * p.entry_delta
  if p.option_type = "call" then -delta_exposure else delta_exposure

/-- `Position.calculate_target_hedge`: target hedge for a given delta
(the raw delta is used, without `abs`). -/
def Position.calculate_target_hedge (p : Position) (current_delta : ℚ) : ℚ :=
  let delta_exposure := p.size * current_delta
  if p.option_type = "call" then -delta_exposure else delta_exposure

/-- `Position.check_rehedge`: returns `(needs_rehedge, amount, action)`. -/
def Position.check_rehedge (p : Position) (current_delta : ℚ) : Bool × ℚ × String :=
  let target := p.calculate_target_hedge current_delta
  let diff := target - p.current_hedge
  let abs_diff := |diff|
  if abs_diff > p.band then
    (true, abs_diff, if diff > 0 then "BUY" else "SELL")
  else
    (false, 0, "")

namespace PositionManager

/-- `PositionManager.load_positions`: all records of the positions file whose
`is_active` flag is set (the JSON field defaults to true when absent; the
modelled records always carry the field). -/
def load_positions (file : List Position) : List Position :=
  file.filter (fun p => p.is_active)

/-- `PositionManager.save_positions`: writes `positions`, after appending
every record of the old file whose id is not among the ids of `positions`
("load existing to preserve inactive ones"). -/
def save_positions (positions : List Position) (file : List Position) : List Position :=
  let active_ids := positions.map (fun p => p.id)
  positions ++ file.filter (fun p => ! active_ids.contains p.id)

/-- `PositionManager.add_position`. -/
def add_position (pos : Position) (file : List Position) : List Position :=
  save_positions (load_positions file ++ [pos]) file

/-- `PositionManager.update_position`. -/
def update_position (pos : Position) (file : List Position) : List Position :=
  save_positions (replaceFirst (fun p => p.id == pos.id) pos (load_positions file)) file

/-- `PositionManager.close_position` together with the inlined
`_archive_position`: the history file is the second component.  The matched
record is deactivated, stamped and appended to the history; the remaining
active records are then saved. -/
def close_position (pos_id : String) (now : String)
    (file : List Position) (history : List Position) :
    List Position × List Position :=
  let positions := load_positions file
  match positions.find? (fun p => p.id == pos_id) with
  | some p =>
      let archived := { p with is_active := false, updated_at := now }
      (save_positions (positions.filter (fun q => q.id != pos_id)) file,
       history ++ [archived])
  | none => (save_positions positions file, history)

/-- `PositionManager.make_contract_name`. -/
def make_contract_name (expiry : String) (strike : ℚ) (option_type : String) : String :=
  "BTC-" ++ expiry.toUpper ++ "-" ++ toString (pyInt strike) ++ "-"
    ++ (option_type.take 1).toUpper

end PositionManager

namespace Tui

/-- `PositionDetailScreen._apply_manual_delta` of `tui.py`, state part: on a
triggered rehedge the position's hedge is set to the freshly computed target,
the counter is incremented, `updated_at` stamped and the record persisted via
`PositionManager.update_position`; otherwise nothing changes.  Returns the
(possibly updated) position and the new positions file. -/
def apply_manual_delta (pos : Position) (delta : ℚ) (now : String)
    (file : List Position) : Position × List Position :=
  let r := pos.check_rehedge delta
  if r.1 then
    let target := pos.calculate_target_hedge delta
    let pos' := { pos with
      current_hedge := target,
      rehedge_count := pos.rehedge_count + 1,
      updated_at := now }
    (pos', PositionManager.update_position pos' file)
  else
    (pos, file)

/-- `NewPositionModal.on_add` of `tui.py`, after input parsing: `expiry` is
the stripped/upper-cased text, the numeric fields are the parsed floats.
The only validation is Python falsiness: empty expiry, zero strike or zero
size raise and nothing is written; otherwise the position is created and
persisted via `PositionManager.add_position`.  `pos_id` stands for the
timestamp-derived `PositionManager.generate_id()` result. -/
def on_add (expiry opt_type : String) (strike size entry_delta band : ℚ)
    (pos_id : String) (binance_symbol : Option String) (now : String)
    (file : List Position) : Option (Position × List Position) :=
  if expiry = "" ∨ strike = 0 ∨ size = 0 then none
  else
    let name := PositionManager.make_contract_name expiry strike opt_type
    let delta_exposure := size * entry_delta
    let initial_hedge := if opt_type = "call" then -delta_exposure else delta_exposure
    let pos : Position := {
      id := pos_id, name := name, option_type := opt_type, strike := strike,
      expiry := expiry, size := size, entry_delta := entry_delta, band := band,
      current_hedge := initial_hedge, created_at := now, updated_at := now,
      rehedge_count := 0, is_active := true, binance_symbol := binance_symbol }
    some (pos, PositionManager.add_position pos file)

end Tui

/-- One record of `sniper_trade.json` as written by `run.py` (`new_trade`);
`end_time` is added by `close_position` when the record is archived. -/
structure RunPosition where
  id : Nat
  start_time : String
  name : String
  type : String
  strike : ℚ
  size : ℚ
  band : ℚ
  current_hedge_pos : ℚ
  trades_count : Nat
  last_delta : ℚ
  end_time : Option String := none
deriving Repr, DecidableEq

namespace Run

/-- `run.py` `get_position_by_id`. -/
def get_position_by_id (positions : List RunPosition) (pos_id : Nat) : Option RunPosition :=
  positions.find? (fun p => p.id == pos_id)

/-- `run.py` `remove_position`. -/
def remove_position (pos_id : Nat) (positions : List RunPosition) : List RunPosition :=
  positions.filter (fun p => p.id != pos_id)

/-- `run.py` `generate_id`: 1 on an empty store, otherwise the maximum id
among the (active) stored positions plus one.  The archive is not consulted. -/
def generate_id (positions : List RunPosition) : Nat :=
  match positions with
  | [] => 1
  | _ => (positions.map (fun p => p.id)).foldl Nat.max 0 + 1

/-- The `while` loop of `new_trade` reading the option type: only
`call`, `put`, `c`, `p` are accepted, and the accepted text is normalized to
`call` when it contains a `c`, else to `put`. -/
def parse_option_type (s : String) : Option String :=
  if s = "call" ∨ s = "put" ∨ s = "c" ∨ s = "p" then
    some (if s.contains 'c' then "call" else "put")
  else none

/-- `run.py` `new_trade`, after input collection: `option_type` is the
normalized type, the rationals are the parsed floats, `confirm` is the
operator's answer to "Did you execute this hedge?".  Returns the created
position (if any) and the new contents of the positions file. -/
def new_trade (expiry option_type : String) (strike band entry_delta size : ℚ)
    (confirm : Bool) (now : String) (positions : List RunPosition) :
    Option RunPosition × List RunPosition :=
  let contract_name := "BTC-" ++ expiry ++ "-" ++ toString (pyInt strike)
      ++ (if option_type = "call" then "-C" else "-P")
  let raw_delta_exposure := size * entry_delta
  let required_hedge :=
    if option_type = "call" then -raw_delta_exposure else raw_delta_exposure
  if confirm then
    let pos_id := generate_id positions
    let position : RunPosition := {
      id := pos_id, start_time := now, name := contract_name,
      type := option_type, strike := strike, size := size, band := band,
      current_hedge_pos := required_hedge, trades_count := 0,
      last_delta := entry_delta }
    (some position, positions ++ [position])
  else
    (none, positions)

/-- The target-hedge computation inlined in `update_delta`
(`run.py` lines 160-166): the absolute value of the entered delta is taken
before the option-type sign rule is applied. -/
def update_target_hedge (ptype : String) (size current_delta : ℚ) : ℚ :=
  let contract_delta_val := |current_delta|
  if ptype = "call" then -(size * contract_delta_val)
  else size * contract_delta_val

/-- `run.py` `update_delta`: `current_delta` is the entered delta and
`confirm` the answer to "Did you do it?" (only asked when the band is
exceeded).  Returns the new contents of the positions file. -/
def update_delta (pos_id : Nat) (current_delta : ℚ) (confirm : Bool)
    (positions : List RunPosition) : List RunPosition :=
  match get_position_by_id positions pos_id with
  | none => positions
  | some position =>
    let target_hedge := update_target_hedge position.type position.size current_delta
    let diff := target_hedge - position.current_hedge_pos
    let abs_diff := |diff|
    if abs_diff > position.band then
      if confirm then
        let position' := { position with
          current_hedge_pos := position.current_hedge_pos + diff,
          trades_count := position.trades_count + 1,
          last_delta := current_delta }
        replaceFirst (fun p => p.id == pos_id) position' positions
      else positions
    else
      let position' := { position with last_delta := current_delta }
      replaceFirst (fun p => p.id == pos_id) position' positions

/-- `run.py` `close_position`: on a confirmed close of a known id the record
is stamped with `end_time`, appended to the history file and removed from the
active file.  Returns the new `(positions, history)` file contents. -/
def close_position (pos_id : Nat) (confirm : Bool) (now : String)
    (positions history : List RunPosition) :
    List RunPosition × List RunPosition :=
  match get_position_by_id positions pos_id with
  | none => (positions, history)
  | some position =>
    if confirm then
      (remove_position pos_id positions,
       history ++ [{ position with end_time := some now }])
    else
      (positions, history)

end Run

/-! Concrete records used by witnesses and counterexamples. -/

/-- The §8 scenario position of the spec, as a TUI/`positions.py` record:
call, strike 70000, size 0.1, entry delta 0.5, band 0.0038,
current hedge -0.05. -/
def scenPos : Position :=
  { id := "S1", name := "BTC-27FEB-70000-C", option_type := "call",
    strike := 70000, expiry := "27FEB", size := 1/10, entry_delta := 1/2,
    band := 19/5000, current_hedge := -1/20, created_at := "t0",
    updated_at := "t0" }

/-- The §8 scenario position as a `run.py` record. -/
def runScenPos : RunPosition :=
  { id := 1, start_time := "t0", name := "BTC-27FEB-70000-C", type := "call",
    strike := 70000, size := 1/10, band := 19/5000,
    current_hedge_pos := -1/20, trades_count := 0, last_delta := 1/2 }

/-- A call position of size 1 (used against the sign claims). -/
def callPos : Position :=
  { id := "C1", name := "BTC-27FEB-70000-C", option_type := "call",
    strike := 70000, expiry := "27FEB", size := 1, entry_delta := 1/2,
    band := 1/100, current_hedge := -1/2, created_at := "t0",
    updated_at := "t0" }

/-- A call position with a negative entry delta. -/
def negDeltaPos : Position :=
  { id := "N1", name := "BTC-27FEB-70000-C", option_type := "call",
    strike := 70000, expiry := "27FEB", size := 1, entry_delta := -1/2,
    band := 1/100, current_hedge := 0, created_at := "t0",
    updated_at := "t0" }

/-- An active stored position with id "A". -/
def storedPosA : Position :=
  { id := "A", name := "BTC-27FEB-70000-C", option_type := "call",
    strike := 70000, expiry := "27FEB", size := 1/10, entry_delta := 1/2,
    band := 19/5000, current_hedge := -1/20, created_at := "t0",
    updated_at := "t0" }

/-- A second position carrying the same id "A". -/
def dupPosA : Position :=
  { id := "A", name := "BTC-27FEB-60000-P", option_type := "put",
    strike := 60000, expiry := "27FEB", size := 1/5, entry_delta := 1/4,
    band := 19/5000, current_hedge := 1/20, created_at := "t1",
    updated_at := "t1" }

/-- A `run.py` position far enough from its target hedge to trigger. -/
def runTriggerPos : RunPosition :=
  { id := 1, start_time := "t0", name := "BTC-27FEB-70000-C", type := "call",
    strike := 70000, size := 1, band := 1/1000,
    current_hedge_pos := 0, trades_count := 0, last_delta := 1/2 }

/-! Helper lemmas. -/

/-- Unfolding lemma for `|·|` on `ℚ`, used to evaluate concrete instances. -/
theorem rat_abs_eval (q : ℚ) : |q| = if q < 0 then -q else q := by
  rcases lt_or_ge q 0 with h | h
  · rw [abs_of_neg h, if_pos h]
  · rw [abs_of_nonneg h, if_neg (not_lt.mpr h)]

theorem replaceFirst_find? {α : Type} (P : α → Bool) (v : α) (l : List α)
    (hv : P v = true) (hl : (l.find? P).isSome) :
    (replaceFirst P v l).find? P = some v := by
  induction l with
  | nil => simp [List.find?] at hl
  | cons p rest ih =>
    cases hp : P p with
    | true =>
      simp only [replaceFirst, hp, cond_true]
      exact List.find?_cons_of_pos _ hv
    | false =>
      have hnp : ¬ (P p = true) := by simp [hp]
      simp only [replaceFirst, hp, cond_false]
      rw [List.find?_cons_of_neg _ hnp]
      exact ih (by rwa [List.find?_cons_of_neg _ hnp] at hl)

theorem mem_replaceFirst {α : Type} (P : α → Bool) (v : α) (l : List α)
    (hl : (l.find? P).isSome) : v ∈ replaceFirst P v l := by
  induction l with
  | nil => simp [List.find?] at hl
  | cons p rest ih =>
    cases hp : P p with
    | true => simp [replaceFirst, hp]
    | false =>
      have hnp : ¬ (P p = true) := by simp [hp]
      simp only [replaceFirst, hp, cond_false]
      exact List.mem_cons_of_mem _
        (ih (by rwa [List.find?_cons_of_neg _ hnp] at hl))

theorem foldl_max_init_le (l : List Nat) (init : Nat) :
    init ≤ l.foldl Nat.max init := by
  induction l generalizing init with
  | nil => exact Nat.le_refl _
  | cons b t ih => exact Nat.le_trans (Nat.le_max_left init b) (ih _)

theorem le_foldl_max_of_mem {a : Nat} (l : List Nat) (init : Nat) (h : a ∈ l) :
    a ≤ l.foldl Nat.max init := by
  induction l generalizing init with
  | nil => cases h
  | cons b t ih =>
    rcases List.mem_cons.mp h with rfl | hmem
    · exact Nat.le_trans (Nat.le_max_right init a) (foldl_max_init_le t _)
    · exact ih _ hmem

/-- Members of `positions` that survive into `save_positions positions file`. -/
theorem mem_save_positions_left (positions file : List Position) (p : Position)
    (hp : p ∈ positions) : p ∈ PositionManager.save_positions positions file :=
  List.mem_append_left _ hp

/-- An active member of the list passed to `save_positions` is again loaded
as active from the written file. -/
theorem mem_load_save (positions file : List Position) (p : Position)
    (hp : p ∈ positions) (hact : p.is_active = true) :
    p ∈ PositionManager.load_positions (PositionManager.save_positions positions file) :=
  List.mem_filter.mpr ⟨mem_save_positions_left positions file p hp, hact⟩

/-! Claim theorems. -/

/-- Claim C1: for every position and observed delta, `check_rehedge` reports
`needed` exactly when `|target - current_hedge| > band` (strict), and when
needed the action is BUY for a positive diff, SELL otherwise, with amount
`|diff|`. -/
theorem c1_rehedge_decision (pos : Position) (d : ℚ) :
    ((pos.check_rehedge d).1 = true ↔
      |pos.calculate_target_hedge d - pos.current_hedge| > pos.band) ∧
    ((pos.check_rehedge d).1 = true →
      (pos.check_rehedge d).2.1 = |pos.calculate_target_hedge d - pos.current_hedge| ∧
      (pos.check_rehedge d).2.2 =
        (if pos.calculate_target_hedge d - pos.current_hedge > 0
         then "BUY" else "SELL")) := by
  unfold Position.check_rehedge
  by_cases hb : pos.band < |pos.calculate_target_hedge d - pos.current_hedge|
  · rw [if_pos hb]
    exact ⟨by simp [hb], fun _ => ⟨rfl, rfl⟩⟩
  · rw [if_neg hb]
    exact ⟨by simp [hb], fun hfalse => by simp at hfalse⟩

/-- Witness for C1 at the §8 scenario: observing 0.55 triggers, the amount is
its gap and the action the SELL branch of the diff sign test. -/
theorem c1_rehedge_decision_witness :
    (scenPos.check_rehedge (11/20)).2.1 =
      |scenPos.calculate_target_hedge (11/20) - scenPos.current_hedge| ∧
    (scenPos.check_rehedge (11/20)).2.2 =
      (if scenPos.calculate_target_hedge (11/20) - scenPos.current_hedge > 0
       then "BUY" else "SELL") :=
  (c1_rehedge_decision scenPos (11/20)).2
    (by norm_num [Position.check_rehedge, Position.calculate_target_hedge,
      rat_abs_eval, scenPos])

/-- Claim C2, amended: the CLI target-hedge computation (`update_delta`,
`run.py` 160-166) takes `abs` of the entered delta before the sign rule and
so is independent of the delta's sign; `Position.calculate_target_hedge`
(`positions.py` 42-48) applies the sign rule to the raw delta instead. -/
theorem c2_cli_target_hedge_abs (ptype : String) (size d : ℚ) :
    Run.update_target_hedge ptype size d = Run.update_target_hedge ptype size (-d) ∧
    Run.update_target_hedge "call" size d = -(size * |d|) ∧
    Run.update_target_hedge "put" size d = size * |d| := by
  refine ⟨?_, ?_, ?_⟩ <;> simp [Run.update_target_hedge, abs_neg]

/-- Counterexample to C2 as stated: `Position.calculate_target_hedge` on a
call of size 1 maps delta -1/2 to +1/2, not to `-(size * |delta|) = -1/2`;
its result depends on the sign of the supplied delta. -/
theorem c2_counterexample :
    callPos.calculate_target_hedge (-1/2) = 1/2 ∧
    -(callPos.size * |(-1/2 : ℚ)|) = -(1/2) ∧
    callPos.calculate_target_hedge (-1/2) ≠ callPos.calculate_target_hedge (1/2) := by
  norm_num [Position.calculate_target_hedge, callPos, rat_abs_eval]

/-- Claim C3, code bug: closing the only active position "A" through
`PositionManager.close_position` appends it to the history, but the positions
file written by `save_positions` still carries the stale record with
`is_active = true`, so the id is loaded as active again (it is in both
collections at once), and a second close succeeds and appends a second
history entry instead of failing with NotFound. -/
theorem c3_close_leaves_id_active :
    ((PositionManager.load_positions
        (PositionManager.close_position "A" "t1" [storedPosA] []).1).map
      (fun p => p.id) = ["A"]) ∧
    ((PositionManager.close_position "A" "t1" [storedPosA] []).2.map
      (fun p => (p.id, p.is_active, p.updated_at)) = [("A", false, "t1")]) ∧
    ((PositionManager.close_position "A" "t2"
        (PositionManager.close_position "A" "t1" [storedPosA] []).1
        (PositionManager.close_position "A" "t1" [storedPosA] []).2).2.map
      (fun p => p.id) = ["A", "A"]) := by
  norm_num [PositionManager.close_position, PositionManager.load_positions,
    PositionManager.save_positions, storedPosA, List.find?, List.filter]

/-- Claim C4, amended: creation performs no positivity validation.  In the
CLI a confirmed request is persisted whatever the signs of `size` and `band`
(the input loop only constrains `option_type` to call/put); the TUI modal
rejects only empty expiry and zero strike or size. -/
theorem c4_no_positivity_validation (expiry ot : String)
    (strike band entry_delta size : ℚ) (now : String)
    (positions : List RunPosition) (s t : String)
    (hparse : Run.parse_option_type s = some t)
    (tex ttyp : String) (tstrike tsize ted tband : ℚ) (tid tnow : String)
    (file : List Position)
    (hex : tex ≠ "") (hstrike : tstrike ≠ 0) (hsize : tsize ≠ 0) :
    (Run.new_trade expiry ot strike band entry_delta size true now positions).1.isSome
      = true ∧
    (Run.new_trade expiry ot strike band entry_delta size true now positions).2.length
      = positions.length + 1 ∧
    (t = "call" ∨ t = "put") ∧
    (Tui.on_add tex ttyp tstrike tsize ted tband tid none tnow file).isSome = true := by
  refine ⟨rfl, by simp [Run.new_trade], ?_, ?_⟩
  · unfold Run.parse_option_type at hparse
    split_ifs at hparse with hacc hc
    · exact Or.inl (Option.some.inj hparse).symm
    · exact Or.inr (Option.some.inj hparse).symm
  · unfold Tui.on_add
    rw [if_neg (by push_neg; exact ⟨hex, hstrike, hsize⟩)]
    rfl

/-- Witness for C4: a confirmed CLI request with size -1 and band -1 is
persisted; `"c"` parses to `"call"`; the TUI modal accepts size -1/10 and
band 0. -/
theorem c4_no_positivity_validation_witness :
    (Run.new_trade "29MAR" "call" 70000 (-1) (1/2) (-1) true "t" []).1.isSome = true ∧
    (Run.new_trade "29MAR" "call" 70000 (-1) (1/2) (-1) true "t" []).2.length
      = List.length ([] : List RunPosition) + 1 ∧
    (("call" : String) = "call" ∨ ("call" : String) = "put") ∧
    (Tui.on_add "27FEB" "call" 70000 (-1/10) (1/4) 0 "20260101-000000" none "t"
      []).isSome = true :=
  c4_no_positivity_validation "29MAR" "call" 70000 (-1) (1/2) (-1) "t" []
    "c" "call"
    (by unfold Run.parse_option_type
        rw [if_pos (by decide), if_pos (by rw [String.contains_iff]; decide)])
    "27FEB" "call" 70000 (-1/10) (1/4) 0 "20260101-000000" "t" []
    (by decide) (by norm_num) (by norm_num)

/-- Counterexample to C4 as stated: a new-position request with size -1 and
band -1 (both negative) is not rejected — the CLI persists it. -/
theorem c4_counterexample :
    ((-1 : ℚ) < 0) ∧
    (Run.new_trade "29MAR" "call" 70000 (-1) (1/2) (-1) true "t" []).1.isSome = true ∧
    ((Run.new_trade "29MAR" "call" 70000 (-1) (1/2) (-1) true "t" []).2.map
      (fun p => (p.size, p.band))) = [(-1, -1)] := by
  norm_num [Run.new_trade, Run.generate_id]

/-- Claim C5, amended: `run.py`'s `generate_id` is guaranteed distinct from
every id in the **active** store (it returns a strict upper bound of the
active ids), but it does not consult the archive and can duplicate an
archived id after a close. -/
theorem c5_generate_id_fresh_active (positions : List RunPosition)
    (p : RunPosition) (hp : p ∈ positions) :
    Run.generate_id positions ≠ p.id := by
  cases positions with
  | nil => cases hp
  | cons q rest =>
    show ((q :: rest).map (fun p => p.id)).foldl Nat.max 0 + 1 ≠ p.id
    have hle : p.id ≤ ((q :: rest).map (fun p => p.id)).foldl Nat.max 0 :=
      le_foldl_max_of_mem _ 0 (List.mem_map_of_mem _ hp)
    omega

/-- Witness for C5 (amended): the generated id differs from the stored one. -/
theorem c5_generate_id_fresh_active_witness :
    Run.generate_id [runScenPos] ≠ runScenPos.id :=
  c5_generate_id_fresh_active [runScenPos] runScenPos (by simp)

/-- Counterexample to C5 as stated: create a position (id 1), close it (the
archive now holds id 1, the active store is empty); `generate_id` then
returns 1, duplicating the archived identifier. -/
theorem c5_counterexample :
    (Run.close_position 1 true "t1"
      (Run.new_trade "29MAR" "call" 70000 (19/5000) (1/2) (1/10) true "t0" []).2
      []).1 = [] ∧
    ((Run.close_position 1 true "t1"
      (Run.new_trade "29MAR" "call" 70000 (19/5000) (1/2) (1/10) true "t0" []).2
      []).2.map (fun p => p.id)) = [1] ∧
    Run.generate_id
      (Run.close_position 1 true "t1"
        (Run.new_trade "29MAR" "call" 70000 (19/5000) (1/2) (1/10) true "t0" []).2
        []).1 = 1 := by
  norm_num [Run.new_trade, Run.generate_id, Run.close_position,
    Run.get_position_by_id, Run.remove_position, List.find?, List.filter]

/-- Claim C6, amended: `update_delta` updates and persists `last_delta` when
no rehedge is triggered (leaving `current_hedge_pos` and `trades_count`
untouched), but when a triggered rehedge is declined it persists nothing at
all — `last_delta` included: the store is returned unchanged. -/
theorem c6_observe_delta_frame (pos_id : Nat) (d : ℚ) (confirm : Bool)
    (positions : List RunPosition) (pos : RunPosition)
    (h : Run.get_position_by_id positions pos_id = some pos) :
    (¬ |Run.update_target_hedge pos.type pos.size d - pos.current_hedge_pos|
        > pos.band →
      Run.get_position_by_id (Run.update_delta pos_id d confirm positions) pos_id
        = some { pos with last_delta := d }) ∧
    (|Run.update_target_hedge pos.type pos.size d - pos.current_hedge_pos|
        > pos.band →
      Run.update_delta pos_id d false positions = positions) := by
  have hfind : (positions.find? (fun p => p.id == pos_id)).isSome := by
    rw [show positions.find? (fun p => p.id == pos_id) = some pos from h]; rfl
  have h' : positions.find? (fun p => p.id == pos_id) = some pos := h
  have hid : (pos.id == pos_id) = true :=
    @List.find?_some RunPosition (fun p => p.id == pos_id) pos positions h'
  constructor <;> intro hc
  · simp only [Run.update_delta, h, if_neg hc]
    exact replaceFirst_find? _ _ _ hid hfind
  · simp [Run.update_delta, h, if_pos hc]

/-- Witness for C6 (amended), second §8 scenario: observing 0.52 on the
scenario position is inside the band and only `last_delta` changes. -/
theorem c6_observe_delta_frame_witness :
    (¬ |Run.update_target_hedge runScenPos.type runScenPos.size (13/25)
        - runScenPos.current_hedge_pos| > runScenPos.band) ∧
    Run.get_position_by_id (Run.update_delta 1 (13/25) true [runScenPos]) 1
      = some { runScenPos with last_delta := 13/25 } :=
  ⟨by norm_num [Run.update_target_hedge, rat_abs_eval, runScenPos],
   (c6_observe_delta_frame 1 (13/25) true [runScenPos] runScenPos rfl).1
     (by norm_num [Run.update_target_hedge, rat_abs_eval, runScenPos])⟩

/-- Counterexample to C6 as stated: on a triggered rehedge that the operator
declines, `update_delta` returns the store unchanged, so `last_delta` keeps
its old value 1/2 instead of the observed 1 (the same observation confirmed
does store 1, showing the rehedge was indeed triggered). -/
theorem c6_counterexample :
    Run.update_delta 1 1 false [runTriggerPos] = [runTriggerPos] ∧
    (Run.update_delta 1 1 true [runTriggerPos]).map (fun p => p.last_delta) = [1] ∧
    runTriggerPos.last_delta = 1/2 ∧ ((1 : ℚ)/2) ≠ 1 := by
  norm_num [Run.update_delta, Run.update_target_hedge, Run.get_position_by_id,
    rat_abs_eval, runTriggerPos, List.find?, replaceFirst]

/-- Claim C7: confirming a rehedge computed from delta `d` sets the
position's hedge to the target for `d`, increments the rehedge counter by
one, stamps `updated_at` and persists the record; on the §8 scenario the
observation 0.55 yields SELL 0.005 and leaves hedge -0.055, count 1 (both in
the TUI and in the CLI variant). -/
theorem c7_confirm_rehedge (pos : Position) (d : ℚ) (now : String)
    (file : List Position)
    (hneed : (pos.check_rehedge d).1 = true)
    (hmem : pos ∈ PositionManager.load_positions file) :
    (Tui.apply_manual_delta pos d now file).1.current_hedge
      = pos.calculate_target_hedge d ∧
    (Tui.apply_manual_delta pos d now file).1.rehedge_count
      = pos.rehedge_count + 1 ∧
    (Tui.apply_manual_delta pos d now file).1.updated_at = now ∧
    (Tui.apply_manual_delta pos d now file).1
      ∈ PositionManager.load_positions (Tui.apply_manual_delta pos d now file).2 ∧
    scenPos.check_rehedge (11/20) = (true, 1/200, "SELL") ∧
    (Run.update_delta 1 (11/20) true [runScenPos]).map
      (fun p => (p.current_hedge_pos, p.trades_count, p.last_delta))
      = [(-11/200, 1, 11/20)] := by
  have happ : Tui.apply_manual_delta pos d now file
      = ({ pos with
            current_hedge := pos.calculate_target_hedge d,
            rehedge_count := pos.rehedge_count + 1,
            updated_at := now },
         PositionManager.update_position
           { pos with
              current_hedge := pos.calculate_target_hedge d,
              rehedge_count := pos.rehedge_count + 1,
              updated_at := now } file) := by
    simp [Tui.apply_manual_delta, hneed]
  rw [happ]
  have hact : pos.is_active = true := (List.mem_filter.mp hmem).2
  have hfind : ((PositionManager.load_positions file).find?
      (fun p => p.id == pos.id)).isSome := by
    rw [List.find?_isSome]
    exact ⟨pos, hmem, by simp⟩
  refine ⟨rfl, rfl, rfl, ?_, ?_, ?_⟩
  · exact mem_load_save _ _ _ (mem_replaceFirst _ _ _ hfind) hact
  · norm_num [Position.check_rehedge, Position.calculate_target_hedge,
      rat_abs_eval, scenPos]
  · norm_num [Run.update_delta, Run.update_target_hedge, Run.get_position_by_id,
      rat_abs_eval, runScenPos, List.find?, replaceFirst]

/-- Witness for C7 at the §8 scenario position stored alone in the file. -/
theorem c7_confirm_rehedge_witness :
    (Tui.apply_manual_delta scenPos (11/20) "t1" [scenPos]).1.current_hedge
      = scenPos.calculate_target_hedge (11/20) ∧
    (Tui.apply_manual_delta scenPos (11/20) "t1" [scenPos]).1.rehedge_count
      = scenPos.rehedge_count + 1 ∧
    (Tui.apply_manual_delta scenPos (11/20) "t1" [scenPos]).1.updated_at = "t1" ∧
    (Tui.apply_manual_delta scenPos (11/20) "t1" [scenPos]).1
      ∈ PositionManager.load_positions
          (Tui.apply_manual_delta scenPos (11/20) "t1" [scenPos]).2 ∧
    scenPos.check_rehedge (11/20) = (true, 1/200, "SELL") ∧
    (Run.update_delta 1 (11/20) true [runScenPos]).map
      (fun p => (p.current_hedge_pos, p.trades_count, p.last_delta))
      = [(-11/200, 1, 11/20)] :=
  c7_confirm_rehedge scenPos (11/20) "t1" [scenPos]
    (by norm_num [Position.check_rehedge, Position.calculate_target_hedge,
      rat_abs_eval, scenPos])
    (by simp [PositionManager.load_positions, scenPos])

/-- Claim C8, amended: the store's create operation (`add_position`) never
fails: it appends the new record to the active set unconditionally — the new
record and every previously active record are active afterwards.  When the
id is absent this matches the claim's insert; when the id is already active
no DuplicateId error occurs and the store ends up with two active records
with that id (see the counterexample). -/
theorem c8_create_always_inserts (pos : Position) (file : List Position)
    (hact : pos.is_active = true) :
    pos ∈ PositionManager.load_positions (PositionManager.add_position pos file) ∧
    ∀ q ∈ PositionManager.load_positions file,
      q ∈ PositionManager.load_positions (PositionManager.add_position pos file) := by
  constructor
  · exact mem_load_save _ _ _
      (List.mem_append_right _ (List.mem_singleton.mpr rfl)) hact
  · intro q hq
    exact mem_load_save _ _ _ (List.mem_append_left _ hq)
      ((List.mem_filter.mp hq).2)

/-- Witness for C8 (amended): adding a record whose id "A" is already active
still inserts it and keeps the old record. -/
theorem c8_create_always_inserts_witness :
    dupPosA ∈ PositionManager.load_positions
      (PositionManager.add_position dupPosA [storedPosA]) ∧
    ∀ q ∈ PositionManager.load_positions [storedPosA],
      q ∈ PositionManager.load_positions
        (PositionManager.add_position dupPosA [storedPosA]) :=
  c8_create_always_inserts dupPosA [storedPosA] rfl

/-- Counterexample to C8 as stated: creating a record whose id "A" is already
active does not fail with DuplicateId — the store afterwards holds two active
records with id "A". -/
theorem c8_counterexample :
    storedPosA.id = "A" ∧ dupPosA.id = "A" ∧
    ((PositionManager.add_position dupPosA [storedPosA]).map
      (fun p => (p.id, p.is_active))) = [("A", true), ("A", true)] := by
  norm_num [PositionManager.add_position, PositionManager.save_positions,
    PositionManager.load_positions, storedPosA, dupPosA, List.filter]

/-- Claim C9, amended: the entry-hedge computation returns
`-(size * entry_delta)` for a call and `+(size * entry_delta)` for a put for
every input; the sign claim (negative for calls, positive for puts, with
magnitude `size * |delta|`) holds when `entry_delta > 0`, but for
`entry_delta ≤ 0` the sign is zero or reversed. -/
theorem c9_entry_hedge (size d strike band : ℚ) (expiry now : String)
    (ps : List RunPosition) (pos : Position)
    (hs : 0 < size) (hd0 : 0 < d) (_hd1 : d ≤ 1)
    (hpos : pos.size = size) (hpd : pos.entry_delta = d) :
    ((Run.new_trade expiry "call" strike band d size true now ps).1.map
        (fun p => p.current_hedge_pos) = some (-(size * d)) ∧
      -(size * d) < 0 ∧ |(-(size * d))| = size * |d|) ∧
    ((Run.new_trade expiry "put" strike band d size true now ps).1.map
        (fun p => p.current_hedge_pos) = some (size * d) ∧
      0 < size * d ∧ |size * d| = size * |d|) ∧
    (pos.option_type = "call" → pos.target_hedge = -(size * d)) ∧
    (pos.option_type = "put" → pos.target_hedge = size * d) := by
  have hsd : 0 < size * d := mul_pos hs hd0
  refine ⟨⟨?_, ?_, ?_⟩, ⟨?_, ?_, ?_⟩, ?_, ?_⟩
  · simp [Run.new_trade]
  · linarith
  · rw [abs_neg, abs_of_pos hsd, abs_of_pos hd0]
  · simp [Run.new_trade]
  · exact hsd
  · rw [abs_of_pos hsd, abs_of_pos hd0]
  · intro h; simp [Position.target_hedge, h, hpos, hpd]
  · intro h; simp [Position.target_hedge, h, hpos, hpd]

/-- Witness for C9 (amended) at size 0.1, delta 0.5 (the §8 scenario
numbers). -/
theorem c9_entry_hedge_witness :
    ((Run.new_trade "29MAR" "call" 70000 (19/5000) (1/2) (1/10) true "t" []).1.map
        (fun p => p.current_hedge_pos) = some (-((1:ℚ)/10 * (1/2))) ∧
      -((1:ℚ)/10 * (1/2)) < 0 ∧ |(-((1:ℚ)/10 * (1/2)))| = 1/10 * |(1:ℚ)/2|) ∧
    ((Run.new_trade "29MAR" "put" 70000 (19/5000) (1/2) (1/10) true "t" []).1.map
        (fun p => p.current_hedge_pos) = some ((1:ℚ)/10 * (1/2)) ∧
      0 < (1:ℚ)/10 * (1/2) ∧ |(1:ℚ)/10 * (1/2)| = 1/10 * |(1:ℚ)/2|) ∧
    (scenPos.option_type = "call" → scenPos.target_hedge = -((1:ℚ)/10 * (1/2))) ∧
    (scenPos.option_type = "put" → scenPos.target_hedge = (1:ℚ)/10 * (1/2)) :=
  c9_entry_hedge (1/10) (1/2) 70000 (19/5000) "29MAR" "t" [] scenPos
    (by norm_num) (by norm_num) (by norm_num) rfl rfl

/-- Counterexample to C9 as stated: a call with size 1 and entry delta -1/2
(inside [-1, 1]) gets entry hedge +1/2, which is not negative. -/
theorem c9_counterexample :
    negDeltaPos.option_type = "call" ∧ (0 : ℚ) < negDeltaPos.size ∧
    (-1 : ℚ) ≤ negDeltaPos.entry_delta ∧ negDeltaPos.entry_delta ≤ 1 ∧
    negDeltaPos.target_hedge = 1/2 ∧ ¬ negDeltaPos.target_hedge < 0 := by
  norm_num [Position.target_hedge, negDeltaPos]

/-- Claim C10: in the CLI variant, declining the entry-hedge confirmation
makes `new_trade` return before any write: no record is created and the
stored positions are untouched. -/
theorem c10_decline_no_write (expiry ot : String) (strike band entry_delta size : ℚ)
    (now : String) (positions : List RunPosition) :
    Run.new_trade expiry ot strike band entry_delta size false now positions
      = (none, positions) := rfl

end PilkDnLog
